import Mathlib

/-!
Verification development for the chat relay service
(src/python_service/server.py).  The definitions below are a shallow
embedding of the request handler send (the single POST endpoint), its
request normalization, its provider-call dispatch with the
unknown-parameter retry, the response-text extractor, and the recursive
redaction function of the source.  The external provider client is
modelled as an oracle from outgoing calls to results; send additionally
returns the list of provider calls it issued, in order, so that claims
about which calls happen can be stated.
-/

/-- JSON-like structured documents, the shape of the raw provider
payload handled by the redactor (nested mappings and sequences of
primitives, as produced by resp.to_dict in the source). -/
inductive Json where
  | null : Json
  | bool : Bool → Json
  | num : Int → Json
  | str : String → Json
  | arr : List Json → Json
  | obj : List (String × Json) → Json

/-- The keys dropped by the redactor, from server.py line 268. -/
def redactKeys : List String :=
  ["file_id", "file_ids", "vector_store_id", "vector_store_ids", "tool_resources"]

mutual

/-- Embedding of the recursive function _redact (server.py lines 262 to 275):
on a mapping, drop every banned key and recurse into the remaining values;
on a sequence, recurse into every element; leave primitives unchanged. -/
def redact : Json → Json
  | .null => .null
  | .bool b => .bool b
  | .num n => .num n
  | .str s => .str s
  | .arr xs => .arr (redactList xs)
  | .obj kvs => .obj (redactFields kvs)

/-- The sequence branch of _redact: elementwise recursion. -/
def redactList : List Json → List Json
  | [] => []
  | x :: xs => redact x :: redactList xs

/-- The mapping branch of _redact: the loop over obj.items that skips
banned keys and recurses into kept values. -/
def redactFields : List (String × Json) → List (String × Json)
  | [] => []
  | (k, v) :: kvs =>
    if redactKeys.contains k then redactFields kvs
    else (k, redact v) :: redactFields kvs

end

mutual

/-- Checks that no banned key occurs in any mapping at any depth. -/
def noBanned : Json → Bool
  | .null => true
  | .bool _ => true
  | .num _ => true
  | .str _ => true
  | .arr xs => noBannedList xs
  | .obj kvs => noBannedFields kvs

/-- noBanned on every element of a sequence. -/
def noBannedList : List Json → Bool
  | [] => true
  | x :: xs => noBanned x && noBannedList xs

/-- noBanned on every entry of a mapping: the key is not banned and the
value is recursively clean. -/
def noBannedFields : List (String × Json) → Bool
  | [] => true
  | (k, v) :: kvs => !(redactKeys.contains k) && noBanned v && noBannedFields kvs

end

/-- Truthiness of an optional string, as Python evaluates
a str-or-None value in boolean position: None and the empty string are
falsy. -/
def truthyStr : Option String → Bool
  | some s => s != ""
  | none => false

/-- Substring occurrence on character lists, Python x in y on strings. -/
def listInfix (pat : List Char) : List Char → Bool
  | [] => pat.isEmpty
  | c :: t => pat.isPrefixOf (c :: t) || listInfix pat t

/-- Python substring test: pat in s. -/
def strContainsSub (s pat : String) : Bool :=
  listInfix pat.data s.data

/-- The retry guard of server.py line 203: the caught exception message
contains the literal string Unknown parameter: tool_resources (quoted in
the source) or the string unknown_parameter. -/
def isUnknownParamMsg (msg : String) : Bool :=
  strContainsSub msg "Unknown parameter: \x27tool_resources\x27" ||
    strContainsSub msg "unknown_parameter"

/-- One content part of the outgoing input message, server.py line 142. -/
structure ContentPart where
  type : String
  text : String
deriving DecidableEq

/-- A tool marker such as the file_search entry used for attachments and
the top-level tools list. -/
structure ToolSpec where
  type : String
deriving DecidableEq

/-- One attachment record, server.py lines 149 and 151 to 154: the tools
key is present only in the retrieval-enabled branch. -/
structure Attachment where
  file_id : String
  tools : Option (List ToolSpec)
deriving DecidableEq

/-- The input message dict, server.py lines 161 to 164: the attachments
key is added only when the attachment list is non-empty. -/
structure InputMessage where
  role : String
  content : List ContentPart
  attachments : Option (List Attachment)
deriving DecidableEq

/-- The keyword arguments assembled in base_args, server.py lines 169 to
183: model, input, metadata, and the tools list added only when
use_file_search holds. -/
structure BaseArgs where
  model : String
  input : List InputMessage
  metadata : List (String × String)
  tools : Option (List ToolSpec)
deriving DecidableEq

/-- The file_search entry of the tool_resources binding, server.py
line 188. -/
structure FileSearchResources where
  vector_store_ids : List String
deriving DecidableEq

/-- The extra_body tool_resources binding, server.py line 188. -/
structure ToolResources where
  file_search : FileSearchResources
deriving DecidableEq

/-- One outgoing provider call: the keyword arguments plus the optional
extra_body binding (none models calling without extra_body). -/
structure ProviderCall where
  args : BaseArgs
  extra_body : Option ToolResources
deriving DecidableEq

/-- One content part of a provider response item; attributes read
defensively with getattr, so both fields are optional. -/
structure RespContentPart where
  type : Option String
  text : Option String

/-- One item of the provider response output list. -/
structure OutputItem where
  content : Option (List RespContentPart)

/-- A provider response object as the extractor reads it: output_text,
output, id are attribute reads that may be absent, and to_dict is the
best-effort serialization (none when it raises). -/
structure Resp where
  output_text : Option String
  output : Option (List OutputItem)
  id : Option String
  to_dict : Option Json

/-- The inbound JSON body as read by payload.get in server.py lines 123
to 126.  session_id is none when the key is absent or null; text is none
when absent (get defaults it to the empty string); staged_file_ids
distinguishes an absent key (none) from an explicit null (some none);
vector_store_id is none when absent or null. -/
structure Payload where
  session_id : Option String
  text : Option String
  staged_file_ids : Option (Option (List String))
  vector_store_id : Option String

/-- The ambient configuration read by the handler: whether the OpenAI
client was initialized at startup, the NO_RETRIEVAL and
DEBUG_NO_RETRIEVAL environment variables, and the OPENAI_MODEL
environment variable. -/
structure Config where
  clientInit : Bool
  noRetrievalEnv : Option String
  debugNoRetrievalEnv : Option String
  modelEnv : Option String

/-- Server.py line 135: retrieval is administratively disabled when
either environment variable equals the string 1. -/
def noRetrievalOf (cfg : Config) : Bool :=
  (cfg.noRetrievalEnv == some "1") || (cfg.debugNoRetrievalEnv == some "1")

/-- Server.py line 125: payload.get with default empty list, then
or-empty-list, so an absent key and an explicit null both normalize to
the empty list. -/
def stagedOf (p : Payload) : List String :=
  ((p.staged_file_ids).getD none).getD []

/-- Server.py line 142: the single input_text content part. -/
def buildContentParts (text : String) : List ContentPart :=
  [⟨"input_text", text⟩]

/-- Server.py lines 147 to 156: one attachment per staged file id, with
a file_search tool binding only when retrieval is enabled. -/
def buildAttachments (noRetrieval : Bool) (staged : List String) : List Attachment :=
  if !staged.isEmpty then
    if noRetrieval then staged.map (fun fid => ⟨fid, none⟩)
    else staged.map (fun fid => ⟨fid, some [⟨"file_search"⟩]⟩)
  else []

/-- Server.py line 158: use_file_search. -/
def useFileSearch (noRetrieval : Bool) (vs : Option String) (atts : List Attachment) : Bool :=
  !noRetrieval && (truthyStr vs || !atts.isEmpty)

/-- Server.py lines 161 to 164: the attachments key is set only when the
list is non-empty. -/
def buildInputMessage (parts : List ContentPart) (atts : List Attachment) : InputMessage :=
  ⟨"user", parts, if !atts.isEmpty then some atts else none⟩

/-- Server.py lines 172 to 179: the metadata mapping; vector_store_id is
included only when retrieval is enabled, coerced with str and
or-empty-string. -/
def buildMetadata (noRetrieval : Bool) (session_id : String) (vs : Option String) :
    List (String × String) :=
  [("route", "python.chat.message"), ("session_id", session_id)]
    ++ (if noRetrieval then [] else [("vector_store_id", vs.getD "")])
    ++ [("retrieval_disabled", if noRetrieval then "1" else "0")]

/-- Server.py lines 169 to 183: base_args, with the tools list added
only under use_file_search. -/
def buildBaseArgs (model : String) (msg : InputMessage) (md : List (String × String))
    (ufs : Bool) : BaseArgs :=
  ⟨model, [msg], md, if ufs then some [⟨"file_search"⟩] else none⟩

/-- Server.py lines 186 to 188: the extra mapping carries tool_resources
exactly when retrieval is enabled and a truthy vector_store_id was
supplied. -/
def buildExtra (noRetrieval : Bool) (vs : Option String) : Option ToolResources :=
  if !noRetrieval && truthyStr vs then some ⟨⟨[vs.getD ""]⟩⟩ else none

/-- The base_args assembled by send for a validated payload. -/
def mkBaseArgs (cfg : Config) (p : Payload) : BaseArgs :=
  let noRetrieval := noRetrievalOf cfg
  let atts := buildAttachments noRetrieval (stagedOf p)
  buildBaseArgs (cfg.modelEnv.getD "gpt-5")
    (buildInputMessage (buildContentParts (p.text.getD "")) atts)
    (buildMetadata noRetrieval (p.session_id.getD "") p.vector_store_id)
    (useFileSearch noRetrieval p.vector_store_id atts)

/-- The extra_body binding assembled by send for a validated payload. -/
def mkExtra (cfg : Config) (p : Payload) : Option ToolResources :=
  buildExtra (noRetrievalOf cfg) p.vector_store_id

/-- The first provider call send issues for a validated payload. -/
def mkFirstCall (cfg : Config) (p : Payload) : ProviderCall :=
  ⟨mkBaseArgs cfg p, mkExtra cfg p⟩

/-- The provider client collaborator: maps one outgoing call to either a
response object or a raised exception message. -/
def Oracle : Type :=
  ProviderCall → Except String Resp

/-- Server.py lines 197 to 207: issue the call (with extra_body when the
extra mapping is non-empty); if it raises and retrieval is enabled and
the message matches the unknown-parameter test, call once more without
extra_body and let that second outcome stand; any other exception
propagates.  The second component lists the calls issued, in order. -/
def dispatch (oracle : Oracle) (noRetrieval : Bool) (base : BaseArgs)
    (extra : Option ToolResources) : Except String Resp × List ProviderCall :=
  match oracle ⟨base, extra⟩ with
  | .ok r => (.ok r, [⟨base, extra⟩])
  | .error e =>
    if !noRetrieval && isUnknownParamMsg e then
      (oracle ⟨base, none⟩, [⟨base, extra⟩, ⟨base, none⟩])
    else (.error e, [⟨base, extra⟩])

/-- The loop of server.py lines 213 to 218 over the content parts of the
first output item: on each part of matching type, overwrite the
accumulator with its text and stop as soon as the accumulator is truthy. -/
def loopParts : List RespContentPart → Option String → Option String
  | [], acc => acc
  | p :: ps, acc =>
    if p.type == some "output_text" || p.type == some "text" then
      if truthyStr p.text then p.text else loopParts ps p.text
    else loopParts ps acc

/-- Server.py lines 209 to 220 and 280: read output_text; when falsy,
index the first output item (an empty output list raises, leaving the
accumulator none) and run the content-part loop; the final value is
or-defaulted to the empty string. -/
def extractText (r : Resp) : String :=
  let init := r.output_text
  let out :=
    if truthyStr init then init
    else
      match r.output.getD [] with
      | [] => none
      | first :: _ => loopParts (first.content.getD []) init
  out.getD ""

/-- Server.py line 277: the raw payload is redacted exactly when
retrieval is disabled; a missing payload stays missing. -/
def outgoingRaw (noRetrieval : Bool) (md : Option Json) : Option Json :=
  if noRetrieval then
    match md with
    | none => none
    | some j => some (redact j)
  else md

/-- The success body of server.py lines 279 to 283. -/
structure SendOk where
  text : String
  response_id : Option String
  raw : Option Json

/-- An HTTPException surfaced to the client: status code and detail. -/
structure HErr where
  status : Nat
  detail : String
deriving DecidableEq

/-- Server.py lines 279 to 283: assemble the success response from a
provider response object. -/
def processResp (noRetrieval : Bool) (r : Resp) : SendOk :=
  ⟨extractText r, r.id, outgoingRaw noRetrieval r.to_dict⟩

/-- Server.py lines 285 to 294: a provider exception that escapes the
dispatcher becomes an HTTP 500 whose detail is the exception message; a
successful response is post-processed. -/
def mapResult (noRetrieval : Bool) : Except String Resp → Except HErr SendOk
  | .ok r => .ok (processResp noRetrieval r)
  | .error e => .error ⟨500, e⟩

/-- Embedding of the endpoint handler send (server.py lines 117 to 294):
client-initialization check, field validation, normalization, dispatch,
extraction and redaction.  Also returns the list of provider calls
issued. -/
def send (cfg : Config) (oracle : Oracle) (p : Payload) :
    Except HErr SendOk × List ProviderCall :=
  if !cfg.clientInit then
    (.error ⟨500, "OpenAI client not initialized - check OPENAI_API_KEY"⟩, [])
  else if !truthyStr p.session_id || p.text.getD "" == "" then
    (.error ⟨400, "Missing required fields: session_id and text"⟩, [])
  else
    let noRetrieval := noRetrievalOf cfg
    let res := dispatch oracle noRetrieval (mkBaseArgs cfg p) (mkExtra cfg p)
    (mapResult noRetrieval res.1, res.2)

/-- Reading of the claim sentence for the extractor fallback: the first
content part of the first output item whose type is output_text or
text.  Stated from the spec wording, for comparison with extractText. -/
def firstTypedPart (r : Resp) : Option RespContentPart :=
  match r.output.getD [] with
  | [] => none
  | first :: _ =>
    (first.content.getD []).find? (fun p => p.type == some "output_text" || p.type == some "text")

/-- The content parts of the first output item, as the extractor scans
them. -/
def firstParts (r : Resp) : List RespContentPart :=
  match r.output.getD [] with
  | [] => []
  | first :: _ => first.content.getD []

/-- Spec-worded extractor for the fallback claim: top-level output text
when truthy, else the text value of the first content part of matching
type, else the empty string. -/
def specPredictedText (r : Resp) : String :=
  if truthyStr r.output_text then r.output_text.getD ""
  else (((firstTypedPart r).bind RespContentPart.text).getD "")

/-- The text of the first content part of matching type whose text is
non-empty; this is what the extractor loop actually yields. -/
def firstGoodText (ps : List RespContentPart) : Option String :=
  ps.findSome? fun p =>
    if (p.type == some "output_text" || p.type == some "text") && truthyStr p.text then p.text
    else none

/-- Configuration with an initialized client, retrieval enabled, default
model: used by concrete witnesses. -/
def cfgOn : Config :=
  ⟨true, none, none, none⟩

/-- Configuration with retrieval administratively disabled. -/
def cfgOff : Config :=
  ⟨true, some "1", none, none⟩

/-- Configuration whose provider client failed to initialize. -/
def cfgNoClient : Config :=
  ⟨false, none, none, none⟩

/-- A minimal valid payload with a vector store id. -/
def payVS : Payload :=
  ⟨some "s1", some "hi", none, some "vs1"⟩

/-- A minimal valid payload without retrieval inputs. -/
def payPlain : Payload :=
  ⟨some "s1", some "hi", none, none⟩

/-- A stub provider response object. -/
def respStub : Resp :=
  ⟨some "hi there", none, some "r1", none⟩

/-- An oracle that reports an unsupported operation on every call. -/
def oracleUnsupported : Oracle :=
  fun _ => .error "unsupported operation"

/-- An oracle that rejects any call carrying extra_body with an
unknown-parameter message and succeeds otherwise. -/
def oracleRejectExtra : Oracle :=
  fun c =>
    match c.extra_body with
    | some _ => .error "Error code: 400 - unknown_parameter"
    | none => .ok respStub

/-- An oracle that always succeeds with the stub response. -/
def oracleOk : Oracle :=
  fun _ => .ok respStub

/-- The response used by the extraction counterexample: falsy top-level
output text, and two matching content parts, the first with empty text,
the second with the text world. -/
def respTwoParts : Resp :=
  ⟨some "", some [⟨some [⟨some "text", some ""⟩, ⟨some "text", some "world"⟩]⟩], some "r1", none⟩

/-- The response of the spec example: empty output text and one content
part of type text with value hello. -/
def respHello : Resp :=
  ⟨some "", some [⟨some [⟨some "text", some "hello"⟩]⟩], none, none⟩

/-- A payload whose text field is missing. -/
def payNoText : Payload :=
  ⟨some "s1", none, none, none⟩

/-- A payload whose session_id field is missing. -/
def payNoSession : Payload :=
  ⟨none, some "hi", none, none⟩

/-- A payload that supplies staged_file_ids as an explicit null. -/
def payNullStaged : Payload :=
  ⟨some "s1", some "hi", some none, none⟩

/-- A concrete mapping used to witness the redaction key-preservation
statement. -/
def kvsEx : List (String × Json) :=
  [("keep", Json.num 3), ("file_id", Json.str "f1")]

/-! ## Helper lemmas -/

mutual

theorem noBanned_redact_doc (j : Json) : noBanned (redact j) = true := by
  cases j with
  | null => rfl
  | bool b => rfl
  | num n => rfl
  | str s => rfl
  | arr xs => rw [redact, noBanned]; exact noBanned_redact_list xs
  | obj kvs => rw [redact, noBanned]; exact noBanned_redact_fields kvs

theorem noBanned_redact_list (xs : List Json) : noBannedList (redactList xs) = true := by
  cases xs with
  | nil => rfl
  | cons x xs =>
    rw [redactList, noBannedList, noBanned_redact_doc x, noBanned_redact_list xs]
    rfl

theorem noBanned_redact_fields (kvs : List (String × Json)) :
    noBannedFields (redactFields kvs) = true := by
  cases kvs with
  | nil => rfl
  | cons kv kvs =>
    obtain ⟨k, v⟩ := kv
    rw [redactFields]
    by_cases h : redactKeys.contains k = true
    · rw [if_pos h]; exact noBanned_redact_fields kvs
    · rw [if_neg h, noBannedFields, noBanned_redact_doc v, noBanned_redact_fields kvs]
      simp only [Bool.not_eq_true] at h
      rw [h]
      rfl

end

mutual

theorem redact_idem_doc (j : Json) : redact (redact j) = redact j := by
  cases j with
  | null => rfl
  | bool b => rfl
  | num n => rfl
  | str s => rfl
  | arr xs => rw [redact, redact, redact_idem_list xs]
  | obj kvs => rw [redact, redact, redact_idem_fields kvs]

theorem redact_idem_list (xs : List Json) : redactList (redactList xs) = redactList xs := by
  cases xs with
  | nil => rfl
  | cons x xs =>
    rw [redactList, redactList, redact_idem_doc x, redact_idem_list xs]

theorem redact_idem_fields (kvs : List (String × Json)) :
    redactFields (redactFields kvs) = redactFields kvs := by
  cases kvs with
  | nil => rfl
  | cons kv kvs =>
    obtain ⟨k, v⟩ := kv
    rw [redactFields]
    by_cases h : redactKeys.contains k = true
    · rw [if_pos h]; exact redact_idem_fields kvs
    · rw [if_neg h, redactFields, if_neg h, redact_idem_doc v, redact_idem_fields kvs]

end

theorem mem_redactFields (kvs : List (String × Json)) (k : String) (v : Json)
    (hm : (k, v) ∈ kvs) (hk : redactKeys.contains k = false) :
    (k, redact v) ∈ redactFields kvs := by
  induction kvs with
  | nil => cases hm
  | cons kv rest ih =>
    obtain ⟨k0, v0⟩ := kv
    rw [redactFields]
    rcases List.mem_cons.mp hm with heq | hrest
    · injection heq with h1 h2
      subst h1
      subst h2
      rw [if_neg (show ¬(redactKeys.contains k = true) by rw [hk]; exact Bool.false_ne_true)]
      exact List.mem_cons_self _ _
    · by_cases h0 : redactKeys.contains k0 = true
      · rw [if_pos h0]; exact ih hrest
      · rw [if_neg h0]; exact List.mem_cons_of_mem _ (ih hrest)

theorem keys_redactFields (kvs : List (String × Json)) :
    (redactFields kvs).map Prod.fst
      = (kvs.map Prod.fst).filter (fun k => !redactKeys.contains k) := by
  induction kvs with
  | nil => rfl
  | cons kv rest ih =>
    obtain ⟨k, v⟩ := kv
    rw [redactFields]
    by_cases h : redactKeys.contains k = true
    · have h2 : k ∈ redactKeys := by simpa using h
      rw [if_pos h]
      simp [h2, ih]
    · rw [if_neg h]
      simp only [Bool.not_eq_true] at h
      have h2 : k ∉ redactKeys := by simpa using h
      simp [h2, ih]

theorem length_redactList (xs : List Json) : (redactList xs).length = xs.length := by
  induction xs with
  | nil => rfl
  | cons x xs ih => rw [redactList]; simp [ih]


theorem truthyStr_iff (vs : Option String) :
    truthyStr vs = true ↔ ∃ s, vs = some s ∧ s ≠ "" := by
  cases vs with
  | none => simp [truthyStr]
  | some s => simp [truthyStr, bne_iff_ne]

theorem loopParts_getD (ps : List RespContentPart) (acc : Option String)
    (h : truthyStr acc = false) :
    (loopParts ps acc).getD "" = (firstGoodText ps).getD "" := by
  induction ps generalizing acc with
  | nil =>
    cases acc with
    | none => rfl
    | some s =>
      have h2 : s = "" := by simpa [truthyStr] using h
      subst h2
      rfl
  | cons p ps ih =>
    rw [loopParts, firstGoodText, List.findSome?_cons]
    by_cases hm : (p.type == some "output_text" || p.type == some "text") = true
    · rw [if_pos hm]
      by_cases htr : truthyStr p.text = true
      · rw [if_pos htr]
        have hc : ((p.type == some "output_text" || p.type == some "text")
            && truthyStr p.text) = true := by rw [hm, htr]; rfl
        simp only [hc, if_true]
        obtain ⟨t, hpt, hne⟩ := (truthyStr_iff p.text).mp htr
        rw [hpt]
      · have hf : truthyStr p.text = false := by
          revert htr; cases truthyStr p.text <;> simp
        rw [if_neg htr]
        have hc : ((p.type == some "output_text" || p.type == some "text")
            && truthyStr p.text) = false := by rw [hf]; simp
        simp only [hc, Bool.false_eq_true, if_false]
        rw [ih p.text hf]
        rfl
    · have hmf : (p.type == some "output_text" || p.type == some "text") = false := by
        revert hm; cases (p.type == some "output_text" || p.type == some "text") <;> simp
      rw [if_neg hm]
      have hc : ((p.type == some "output_text" || p.type == some "text")
          && truthyStr p.text) = false := by rw [hmf]; simp
      simp only [hc, Bool.false_eq_true, if_false]
      rw [ih acc h]
      rfl


/-! ## Claim theorems -/

/-- C8: the redaction function is idempotent: redacting an already
redacted document yields the same document, with no keys removed on the
second pass. -/
theorem C8_redact_idempotent (j : Json) : redact (redact j) = redact j :=
  redact_idem_doc j

/-- C4: when retrieval is administratively disabled the returned raw
payload has every key named file_id, file_ids, vector_store_id,
vector_store_ids or tool_resources removed at every nesting depth, while
every other key is kept (with its value redacted, in order) and list
length is preserved; when retrieval is enabled the payload is returned
unchanged. -/
theorem C4_redaction (md : Option Json) (j : Json) (kvs : List (String × Json))
    (xs : List Json) (k : String) (v : Json) :
    outgoingRaw false md = md ∧
    outgoingRaw true (some j) = some (redact j) ∧
    noBanned (redact j) = true ∧
    ((k, v) ∈ kvs → redactKeys.contains k = false → (k, redact v) ∈ redactFields kvs) ∧
    (redactFields kvs).map Prod.fst
      = (kvs.map Prod.fst).filter (fun k2 => !redactKeys.contains k2) ∧
    (redactList xs).length = xs.length := by
  refine ⟨rfl, rfl, noBanned_redact_doc j, ?_, keys_redactFields kvs, length_redactList xs⟩
  intro hm hk
  exact mem_redactFields kvs k v hm hk

/-- Witness for C4 at concrete inputs: the kept key keep of kvsEx
survives redaction with its value redacted, and the hypotheses hold. -/
theorem C4_witness :
    ("keep", Json.num 3) ∈ kvsEx ∧
    redactKeys.contains "keep" = false ∧
    ("keep", redact (Json.num 3)) ∈ redactFields kvsEx :=
  ⟨List.mem_cons_self _ _, rfl,
    (C4_redaction none Json.null kvsEx [] "keep" (Json.num 3)).2.2.2.1
      (List.mem_cons_self _ _) rfl⟩

/-- C5 counterexample: the claim says the extractor returns the text of
the first content part of matching type; on respTwoParts that first
matching part has empty text, yet the extractor returns the text of the
second matching part, the string world. -/
theorem C5_counterexample :
    extractText respTwoParts = "world" ∧
    specPredictedText respTwoParts = "" ∧
    ("world" : String) ≠ "" :=
  ⟨rfl, rfl, by decide⟩

/-- C5 (amended): the extractor returns the top-level output-text field
when it is present and non-empty; otherwise it returns the text of the
first content part of type output_text or text with non-empty text
within the first output item, and the empty string when no such part
exists, never null. -/
theorem C5_extraction (r : Resp) :
    (truthyStr r.output_text = true → extractText r = r.output_text.getD "") ∧
    (truthyStr r.output_text = false →
      extractText r = (firstGoodText (firstParts r)).getD "") := by
  constructor
  · intro h
    rw [extractText]
    simp only [h, if_true]
  · intro h
    rw [extractText]
    simp only [h, Bool.false_eq_true, if_false]
    cases ho : r.output.getD [] with
    | nil =>
      rw [firstParts, ho]
      rfl
    | cons first rest =>
      rw [firstParts, ho]
      exact loopParts_getD (first.content.getD []) r.output_text h

/-- Witness for C5 at the spec example: empty top-level output text and
one content part of type text with value hello extracts to hello. -/
theorem C5_witness :
    truthyStr respHello.output_text = false ∧
    extractText respHello = (firstGoodText (firstParts respHello)).getD "" ∧
    extractText respHello = "hello" :=
  ⟨rfl, (C5_extraction respHello).2 rfl, rfl⟩


/-- C3: with an initialized client, a request whose session_id is absent
or empty, or whose text is absent or empty, fails with HTTP 400 and the
fixed detail message, and no provider call is made. -/
theorem C3_validation (cfg : Config) (oracle : Oracle) (p : Payload)
    (hc : cfg.clientInit = true)
    (h : truthyStr p.session_id = false ∨ p.text.getD "" = "") :
    send cfg oracle p
      = (.error ⟨400, "Missing required fields: session_id and text"⟩, []) := by
  rcases h with h | h
  · simp [send, hc, h]
  · simp [send, hc, h]

/-- Witness for C3: a payload with a missing text field is rejected with
HTTP 400 and an empty provider-call list. -/
theorem C3_witness :
    cfgOn.clientInit = true ∧
    payNoText.text.getD "" = "" ∧
    send cfgOn oracleOk payNoText
      = (.error ⟨400, "Missing required fields: session_id and text"⟩, []) :=
  ⟨rfl, rfl, C3_validation cfgOn oracleOk payNoText rfl (Or.inr rfl)⟩

/-- C9: when the provider client is not initialized, every request fails
with HTTP 500 and the client-not-initialized detail before any field
validation, with no provider call; in particular a request that is also
missing session_id or text receives 500, not 400. -/
theorem C9_client_uninit (cfg : Config) (oracle : Oracle) (p : Payload)
    (hc : cfg.clientInit = false) :
    send cfg oracle p
      = (.error ⟨500, "OpenAI client not initialized - check OPENAI_API_KEY"⟩, []) := by
  simp [send, hc]

/-- Witness for C9: a payload that is also missing session_id receives
the 500 client error, not a 400 validation error. -/
theorem C9_witness :
    cfgNoClient.clientInit = false ∧
    truthyStr payNoSession.session_id = false ∧
    send cfgNoClient oracleOk payNoSession
      = (.error ⟨500, "OpenAI client not initialized - check OPENAI_API_KEY"⟩, []) :=
  ⟨rfl, rfl, C9_client_uninit cfgNoClient oracleOk payNoSession rfl⟩

/-- C10: a request whose staged_file_ids is null or omitted is processed
exactly as if it were the empty list: same response and same provider
calls, no attachments are built, the attachments key is omitted from the
input message, and the tool-use flag does not depend on attachments. -/
theorem C10_staged_default (cfg : Config) (oracle : Oracle) (p : Payload)
    (h : p.staged_file_ids = none ∨ p.staged_file_ids = some none) :
    stagedOf p = [] ∧
    send cfg oracle p
      = send cfg oracle ⟨p.session_id, p.text, some (some []), p.vector_store_id⟩ ∧
    buildAttachments (noRetrievalOf cfg) (stagedOf p) = [] ∧
    (buildInputMessage (buildContentParts (p.text.getD ""))
      (buildAttachments (noRetrievalOf cfg) (stagedOf p))).attachments = none ∧
    useFileSearch (noRetrievalOf cfg) p.vector_store_id
        (buildAttachments (noRetrievalOf cfg) (stagedOf p))
      = (!(noRetrievalOf cfg) && truthyStr p.vector_store_id) := by
  obtain ⟨s, t, st, v⟩ := p
  have hst : stagedOf ⟨s, t, st, v⟩ = [] := by
    rcases h with h | h <;> simp only at h <;> subst h <;> rfl
  refine ⟨hst, ?_, ?_, ?_, ?_⟩
  · rcases h with h | h <;> simp only at h <;> subst h <;> rfl
  · rw [hst]; rfl
  · rw [hst]; rfl
  · rw [hst]
    simp [useFileSearch, buildAttachments]

/-- Witness for C10: the payload supplying staged_file_ids as null is
handled identically to the same payload with an empty list. -/
theorem C10_witness :
    payNullStaged.staged_file_ids = some none ∧
    stagedOf payNullStaged = [] ∧
    send cfgOn oracleOk payNullStaged
      = send cfgOn oracleOk
          ⟨payNullStaged.session_id, payNullStaged.text, some (some []),
            payNullStaged.vector_store_id⟩ :=
  ⟨rfl,
    (C10_staged_default cfgOn oracleOk payNullStaged (Or.inr rfl)).1,
    (C10_staged_default cfgOn oracleOk payNullStaged (Or.inr rfl)).2.1⟩

/-- C7: for a non-empty staged list the normalizer builds one attachment
per file id in order; with retrieval disabled each carries only the file
id and no tools key, with retrieval enabled each also carries a
file_search tool binding; concretely, with retrieval disabled and ids f1
and f2 the attachments are exactly the two bare file-id records. -/
theorem C7_attachments (n : Bool) (staged : List String) (h : staged ≠ []) :
    ((buildAttachments n staged).map Attachment.file_id = staged) ∧
    (n = true → ∀ a ∈ buildAttachments n staged, a.tools = none) ∧
    (n = false → ∀ a ∈ buildAttachments n staged,
      a.tools = some [⟨"file_search"⟩]) ∧
    buildAttachments true ["f1", "f2"]
      = [⟨"f1", none⟩, ⟨"f2", none⟩] := by
  have hne : (!staged.isEmpty) = true := by
    cases staged with
    | nil => exact absurd rfl h
    | cons a l => rfl
  refine ⟨?_, ?_, ?_, rfl⟩
  · rw [buildAttachments, if_pos hne]
    cases n
    · rw [if_neg (Bool.false_ne_true), List.map_map]
      exact List.map_id staged
    · rw [if_pos rfl, List.map_map]
      exact List.map_id staged
  · intro hn a ha
    subst hn
    rw [buildAttachments, if_pos hne] at ha
    simp only [if_true] at ha
    obtain ⟨fid, _, rfl⟩ := List.mem_map.mp ha
    rfl
  · intro hn a ha
    subst hn
    rw [buildAttachments, if_pos hne] at ha
    simp only [Bool.false_eq_true, if_false] at ha
    obtain ⟨fid, _, rfl⟩ := List.mem_map.mp ha
    rfl

/-- Witness for C7 with retrieval disabled and staged ids f1 and f2. -/
theorem C7_witness :
    (["f1", "f2"] : List String) ≠ [] ∧
    (buildAttachments true ["f1", "f2"]).map Attachment.file_id = ["f1", "f2"] ∧
    buildAttachments true ["f1", "f2"] = [⟨"f1", none⟩, ⟨"f2", none⟩] :=
  ⟨by decide,
    (C7_attachments true ["f1", "f2"] (by decide)).1,
    (C7_attachments true ["f1", "f2"] (by decide)).2.2.2⟩

/-- C6: the tool-use flag holds exactly when retrieval is not disabled
and either a truthy vector_store_id was supplied or at least one
attachment exists; and when retrieval is enabled and vector_store_id is
vs1, the first outgoing provider call carries a tool_resources binding
whose file_search vector-store list is exactly vs1. -/
theorem C6_tool_flag (n : Bool) (vs : Option String) (atts : List Attachment)
    (cfg : Config) (p : Payload) :
    (useFileSearch n vs atts = true ↔
      (n = false ∧ ((∃ s, vs = some s ∧ s ≠ "") ∨ atts ≠ []))) ∧
    (noRetrievalOf cfg = false → p.vector_store_id = some "vs1" →
      (mkFirstCall cfg p).extra_body = some ⟨⟨["vs1"]⟩⟩ ∧
      useFileSearch (noRetrievalOf cfg) p.vector_store_id
        (buildAttachments (noRetrievalOf cfg) (stagedOf p)) = true) := by
  constructor
  · rw [useFileSearch, ← truthyStr_iff]
    cases n
    · cases hvs : truthyStr vs
      · cases atts <;> simp [List.isEmpty]
      · simp
    · simp
  · intro hnr hvs
    constructor
    · show mkExtra cfg p = _
      rw [mkExtra, buildExtra, hnr, hvs]
      rfl
    · rw [useFileSearch, hnr, hvs]
      rfl

/-- Witness for C6: retrieval enabled and vector store vs1 on a concrete
payload yields the tool_resources binding and the flag. -/
theorem C6_witness :
    noRetrievalOf cfgOn = false ∧
    payVS.vector_store_id = some "vs1" ∧
    ((mkFirstCall cfgOn payVS).extra_body = some ⟨⟨["vs1"]⟩⟩ ∧
      useFileSearch (noRetrievalOf cfgOn) payVS.vector_store_id
        (buildAttachments (noRetrievalOf cfgOn) (stagedOf payVS)) = true) :=
  ⟨rfl, rfl, (C6_tool_flag false (some "vs1") [] cfgOn payVS).2 rfl rfl⟩


/-- C1 counterexample: the provider reports an unsupported operation,
yet the dispatcher does not fall back to any further strategy: the
request fails with HTTP 500 carrying that very message after exactly one
provider call, no stateless-strategy result is produced, and the
outgoing metadata holds only the four fixed entries, no recorded
errors. -/
theorem C1_counterexample :
    send cfgOn oracleUnsupported payPlain
      = (.error ⟨500, "unsupported operation"⟩, [mkFirstCall cfgOn payPlain]) ∧
    (send cfgOn oracleUnsupported payPlain).2.length = 1 ∧
    (mkFirstCall cfgOn payPlain).args.metadata
      = [("route", "python.chat.message"), ("session_id", "s1"),
          ("vector_store_id", ""), ("retrieval_disabled", "0")] :=
  ⟨rfl, rfl, rfl⟩

/-- C1 (amended): the dispatcher has a single strategy, one stateless
responses call; when the provider fails with any message that does not
match the unknown-parameter retry (an unsupported-operation report in
particular), no fallback strategy is attempted: send makes exactly that
one call and fails with HTTP 500 carrying the message, and the outgoing
metadata contains only the route, session_id, vector_store_id and
retrieval_disabled keys, never a record of earlier strategy errors. -/
theorem C1_no_fallback (cfg : Config) (oracle : Oracle) (p : Payload) (msg : String)
    (hc : cfg.clientInit = true)
    (hs : truthyStr p.session_id = true)
    (ht : (p.text.getD "" == "") = false)
    (h1 : oracle (mkFirstCall cfg p) = .error msg)
    (h2 : noRetrievalOf cfg = true ∨ isUnknownParamMsg msg = false) :
    send cfg oracle p = (.error ⟨500, msg⟩, [mkFirstCall cfg p]) ∧
    ∀ kv ∈ (mkFirstCall cfg p).args.metadata,
      kv.1 ∈ ["route", "session_id", "vector_store_id", "retrieval_disabled"] := by
  constructor
  · rw [mkFirstCall] at h1
    simp only [send, hc, hs, ht, Bool.not_true, Bool.false_or, Bool.false_eq_true,
      if_false, dispatch, h1]
    have hcond : (!noRetrievalOf cfg && isUnknownParamMsg msg) = false := by
      rcases h2 with h2 | h2
      · rw [h2]; rfl
      · rw [h2, Bool.and_false]
    rw [hcond]
    rfl
  · intro kv hkv
    have hmd : (mkFirstCall cfg p).args.metadata
        = buildMetadata (noRetrievalOf cfg) (p.session_id.getD "") p.vector_store_id := rfl
    rw [hmd, buildMetadata] at hkv
    cases hnr : noRetrievalOf cfg <;> rw [hnr] at hkv <;> simp at hkv <;>
      rcases hkv with rfl | rfl | rfl | rfl <;> simp

/-- Witness for C1 at the concrete unsupported-operation scenario. -/
theorem C1_witness :
    cfgOn.clientInit = true ∧
    truthyStr payPlain.session_id = true ∧
    (payPlain.text.getD "" == "") = false ∧
    oracleUnsupported (mkFirstCall cfgOn payPlain) = .error "unsupported operation" ∧
    isUnknownParamMsg "unsupported operation" = false ∧
    send cfgOn oracleUnsupported payPlain
      = (.error ⟨500, "unsupported operation"⟩, [mkFirstCall cfgOn payPlain]) :=
  ⟨rfl, rfl, rfl, rfl, by decide,
    (C1_no_fallback cfgOn oracleUnsupported payPlain "unsupported operation"
      rfl rfl rfl rfl (Or.inr (by decide))).1⟩

/-- C2: when the first provider call carries a tool_resources binding
and fails with an unknown-parameter message, the dispatcher calls once
more with the binding omitted and every other argument unchanged, and
that second outcome is returned; a first-call failure with any other
message is not retried and surfaces as HTTP 500 after the single call. -/
theorem C2_unknown_param_retry (cfg : Config) (oracle : Oracle) (p : Payload)
    (tr : ToolResources) (msg : String)
    (hc : cfg.clientInit = true)
    (hs : truthyStr p.session_id = true)
    (ht : (p.text.getD "" == "") = false)
    (he : mkExtra cfg p = some tr)
    (h1 : oracle (mkFirstCall cfg p) = .error msg) :
    (isUnknownParamMsg msg = true →
      send cfg oracle p
        = (mapResult (noRetrievalOf cfg) (oracle ⟨mkBaseArgs cfg p, none⟩),
            [⟨mkBaseArgs cfg p, some tr⟩, ⟨mkBaseArgs cfg p, none⟩])) ∧
    (isUnknownParamMsg msg = false →
      send cfg oracle p = (.error ⟨500, msg⟩, [⟨mkBaseArgs cfg p, some tr⟩])) := by
  have hnr : noRetrievalOf cfg = false := by
    by_contra hx
    have hx2 : noRetrievalOf cfg = true := by
      revert hx; cases noRetrievalOf cfg <;> simp
    rw [mkExtra, buildExtra, hx2] at he
    simp at he
  rw [mkFirstCall, he] at h1
  constructor
  · intro hu
    simp only [send, hc, hs, ht, Bool.not_true, Bool.false_or, Bool.false_eq_true,
      if_false, he, dispatch, h1, hnr, hu, Bool.not_false, Bool.true_and, if_true]
  · intro hu
    simp only [send, hc, hs, ht, Bool.not_true, Bool.false_or, Bool.false_eq_true,
      if_false, he, dispatch, h1, hnr, hu, Bool.not_false, Bool.true_and]
    rfl

/-- Witness for C2: a provider that rejects the tool_resources binding
with an unknown-parameter message is called a second time without the
binding, and that result is returned. -/
theorem C2_witness :
    mkExtra cfgOn payVS = some ⟨⟨["vs1"]⟩⟩ ∧
    oracleRejectExtra (mkFirstCall cfgOn payVS)
      = .error "Error code: 400 - unknown_parameter" ∧
    isUnknownParamMsg "Error code: 400 - unknown_parameter" = true ∧
    send cfgOn oracleRejectExtra payVS
      = (mapResult (noRetrievalOf cfgOn)
            (oracleRejectExtra ⟨mkBaseArgs cfgOn payVS, none⟩),
          [⟨mkBaseArgs cfgOn payVS, some ⟨⟨["vs1"]⟩⟩⟩,
            ⟨mkBaseArgs cfgOn payVS, none⟩]) :=
  ⟨rfl, rfl, by decide,
    (C2_unknown_param_retry cfgOn oracleRejectExtra payVS ⟨⟨["vs1"]⟩⟩
        "Error code: 400 - unknown_parameter" rfl rfl rfl rfl rfl).1 (by decide)⟩

